import Mathlib

/-!
Verification of the flight-crash analytics derivation pipeline.

This file gives a shallow embedding of the algorithmic core of the
repository (normalization, filtering, aggregation, scoring, anomaly
detection, forecasting, insight generation) and proves or refutes the
frozen claims about it.

Conventions used throughout the embedding:
- JavaScript numbers that the source only ever handles as integers are
  embedded as `Nat`/`Int`; fractional arithmetic is embedded as `Rat`;
  the transcendental `Math.log1p` severity computation is embedded over
  `Real`.
- A possibly-absent (`undefined`) field of a raw record is an `Option`.
- A JavaScript expression that throws (property access on `undefined`)
  is embedded with `Except String`.
- `Math.random()`-derived pads are taken as explicit parameters, so the
  theorems quantify over every draw the source could make.
- JavaScript string helpers (`toLowerCase`, `includes`, `split`) are
  embedded at the `List Char` level so that they compute by kernel
  reduction.
-/

/-! ## Generic helpers (groupBy / countBy of dashboard.js, Array.prototype.sort) -/

/-- Embedding of `array.sort((a, b) => keyB - keyA)`: insert an element
into a list that is sorted by descending key. -/
def insertDescBy {α : Type} (f : α → ℚ) (x : α) : List α → List α
  | [] => [x]
  | y :: ys => if f x ≤ f y then y :: insertDescBy f x ys else x :: y :: ys

/-- Sort a list by descending key, by repeated insertion.  Models the
`sort((a, b) => b.val - a.val)` calls of the source. -/
def sortDescBy {α : Type} (f : α → ℚ) : List α → List α
  | [] => []
  | x :: xs => insertDescBy f x (sortDescBy f xs)

/-- Embedding of the `groupBy(array, key)` helper of `dashboard.js`
(lines 1074-1083): partition a list into key/bucket pairs, buckets in
first-seen key order, each bucket in input order.  (For numeric keys a
JavaScript object would iterate keys in ascending numeric order rather
than insertion order; every use proved about below either sorts the
keys explicitly or is order-insensitive.) -/
def groupBy {α κ : Type} [DecidableEq κ] (array : List α) (key : α → κ) : List (κ × List α) :=
  array.foldl
    (fun result item =>
      if result.any (fun p => decide (p.1 = key item)) then
        result.map (fun p => if p.1 = key item then (p.1, p.2 ++ [item]) else p)
      else
        result ++ [(key item, [item])])
    []

/-- Embedding of the `countBy(array)` helper of `dashboard.js`
(lines 1085-1090): occurrence counts in first-seen order. -/
def countBy {α : Type} [DecidableEq α] (array : List α) : List (α × ℕ) :=
  array.foldl
    (fun result item =>
      if result.any (fun p => decide (p.1 = item)) then
        result.map (fun p => if p.1 = item then (p.1, p.2 + 1) else p)
      else
        result ++ [(item, 1)])
    []

/-! ## JavaScript string primitives -/

/-- Does the second list occur at the head of the first? Helper for the
substring test. -/
def leadsWith {α : Type} [DecidableEq α] : List α → List α → Bool
  | _, [] => true
  | [], _ :: _ => false
  | s :: ss, p :: ps => decide (s = p) && leadsWith ss ps

/-- Does `pat` occur contiguously inside `s`?  Helper for `jsIncludes`. -/
def hasInfix {α : Type} [DecidableEq α] : List α → List α → Bool
  | [], pat => leadsWith [] pat
  | s :: ss, pat => leadsWith (s :: ss) pat || hasInfix ss pat

/-- Embedding of `String.prototype.includes`. -/
def jsIncludes (s pat : String) : Bool :=
  hasInfix s.data pat.data

/-- Embedding of `String.prototype.toLowerCase`, mapped over the
character list so that it computes by kernel reduction. -/
def jsToLower (s : String) : String :=
  ⟨s.data.map Char.toLower⟩

/-- Embedding of `location.split(",")[0]`: the text before the first
comma (the whole string when it has no comma). -/
def textBeforeComma (loc : String) : String :=
  ⟨loc.data.takeWhile (fun c => decide (c ≠ ','))⟩

/-- Embedding of `s || dflt` for strings: the empty string is falsy. -/
def jsOrString (s dflt : String) : String :=
  if s = "" then dflt else s

/-! ## Data model -/

/-- A raw incident object as fetched from `data/crashes.json`
(spec sectionial shape `{Location, Year, Type, Fatalities, Country, ...}`).
Absent fields are `none`.  The `Type` field is called `TypeName` because
`Type` is reserved in Lean; geographic coordinates play no part in any
claim and are omitted. -/
structure RawRecord where
  Location : Option String
  Year : Option ℤ
  TypeName : Option String
  Fatalities : Option ℕ
  Country : Option String
deriving DecidableEq, Repr

/-- The raw record with every field absent: the JavaScript empty object. -/
def emptyRaw : RawRecord :=
  { Location := none, Year := none, TypeName := none, Fatalities := none, Country := none }

/-- A canonical record as produced by `normalizeCrashData` of
`src/unnamed/part_000` (equivalently the inline mapping of
`dashboard.js` `loadData`).  `year`, `decade` and `DateYear` stay
optional because the source copies `crash.Year` through unchanged
(`undefined` stays `undefined` and `decade` becomes `NaN` when the year
is absent).  `DateYear` stands for the year of the derived `Date`
object.  Presentation-only fields (`Location`, `Summary`, coordinates,
`month_name`, `day_of_week`) are omitted. -/
structure NRecord where
  Operator : String
  TypeName : String
  Fatalities : ℕ
  Aboard : ℕ
  Ground : ℕ
  year : Option ℤ
  month : ℕ
  day_name : String
  season : String
  decade : Option ℤ
  DateYear : Option ℤ
deriving DecidableEq, Repr

/-- A record as produced by `normalizeCrashData` of `src/src/script.js`
(lines 300-311), which only defaults the scalar fields. -/
structure SRecord where
  Year : ℤ
  TypeName : String
  Country : String
  Location : String
  Fatalities : ℕ
deriving DecidableEq, Repr

/-- A record of the `part_005` dashboard (`loadCrashData` /
`generateSampleData` shape), carrying a severity score.  Only the
fields used by the risk ranking are kept. -/
structure PRecord where
  operator : String
  fatalities : ℕ
  aboard : ℕ
  severityScore : ℚ
deriving DecidableEq, Repr

/-! ## Normalizer (src/unnamed/part_000, lines 37-57 and 104-109) -/

/-- Embedding of `getSeason(year, month)` (part_000 lines 104-109).
The `year` argument is unused by the source; it is kept optional
because `normalizeCrashData` passes the raw (possibly absent) year. -/
def getSeason (year : Option ℤ) (month : ℤ) : String :=
  if month ≥ 12 ∨ month ≤ 2 then "Winter"
  else if month ≥ 3 ∧ month ≤ 5 then "Spring"
  else if month ≥ 6 ∧ month ≤ 8 then "Summer"
  else "Fall"

/-- Embedding of `normalizeCrashData(crash)` (part_000 lines 37-57).
`padAboard` stands for the draw `Math.floor(Math.random() * 50)` and
`padGround` for `Math.floor(Math.random() * 10)`; theorems quantify
over them.  When `Location` is absent the source throws a `TypeError`
on `crash.Location.split(",")`, embedded as `Except.error`. -/
def normalizeCrashData (crash : RawRecord) (padAboard padGround : ℕ) :
    Except String NRecord :=
  match crash.Location with
  | none => Except.error "TypeError: cannot read properties of undefined (reading split)"
  | some loc =>
      Except.ok
        { Operator := jsOrString (textBeforeComma loc) "Unknown"
          TypeName := crash.TypeName.getD "Unknown"
          Fatalities := crash.Fatalities.getD 0
          Aboard :=
            match crash.Fatalities with
            | some f => if 0 < f then f + padAboard else 50
            | none => 50
          Ground := padGround
          year := crash.Year
          month := 1
          day_name := "Monday"
          season := getSeason crash.Year 1
          decade := crash.Year.map (fun y => Int.fdiv y 10 * 10)
          DateYear := crash.Year }

/-! ## script.js normalizer and filter engine (src/src/script.js) -/

/-- Embedding of `normalizeCrashData(data)` of `src/src/script.js`
(lines 300-311), per record.  `Number(x) || 0` sends an absent field
to `0`. -/
def normalizeCrashDataScript (c : RawRecord) : SRecord :=
  { Year := c.Year.getD 0
    TypeName := c.TypeName.getD "Unknown"
    Country := c.Country.getD "Unknown"
    Location := c.Location.getD "Unknown"
    Fatalities := c.Fatalities.getD 0 }

/-- Embedding of the predicate inside `applyFilters` of
`src/src/script.js` (lines 524-543).  The source lowercases the region
input once (`regionFilter.value.toLowerCase()`) and then tests
`!region || c.Country.toLowerCase().includes(region)`. -/
def matchesFilters (minY maxY : ℤ) (typeFilter regionLower : String) (minF : ℕ)
    (c : SRecord) : Bool :=
  decide (c.Year ≥ minY) && decide (c.Year ≤ maxY) &&
    (decide (typeFilter = "All") || decide (c.TypeName = typeFilter)) &&
    (decide (regionLower = "") || jsIncludes (jsToLower c.Country) regionLower) &&
    decide (c.Fatalities ≥ minF)

/-- Embedding of `applyFilters` of `src/src/script.js` (lines 524-543),
with the filter configuration passed explicitly instead of read from
the DOM. -/
def applyFilters (minY maxY : ℤ) (typeFilter region : String) (minF : ℕ)
    (crashData : List SRecord) : List SRecord :=
  crashData.filter (matchesFilters minY maxY typeFilter (jsToLower region) minF)

/-! ## Statistics and safety scorer (dashboard.js, lines 757-830 and 954-957) -/

/-- Embedding of `crash.Aboard || crash.Fatalities + 10` (dashboard.js
line 765): an aboard count of `0` is falsy, so the fallback estimate
`Fatalities + 10` is used. -/
def aboardOr (r : NRecord) : ℕ :=
  if r.Aboard = 0 then r.Fatalities + 10 else r.Aboard

/-- Cumulative fatalities of a record group (dashboard.js line 764). -/
def totalFatalities (crashes : List NRecord) : ℕ :=
  (crashes.map (fun r => r.Fatalities)).sum

/-- Cumulative aboard of a record group, with the per-record fallback
(dashboard.js line 765). -/
def totalAboard (crashes : List NRecord) : ℕ :=
  (crashes.map aboardOr).sum

/-- Embedding of `totalAboard > 0 ? (totalFatalities / totalAboard) * 100 : 0`
(dashboard.js line 766). -/
def fatalityRate (tf ta : ℚ) : ℚ :=
  if 0 < ta then tf / ta * 100 else 0

/-- Embedding of the overall survival rate of `generateAIInsights`
(dashboard.js line 957):
`totalAboard > 0 ? ((totalAboard - totalFatalities) / totalAboard * 100) : 0`. -/
def survivalRate (ta tf : ℚ) : ℚ :=
  if 0 < ta then (ta - tf) / ta * 100 else 0

/-- Embedding of the safety-score computation of
`renderSafetyRankingsChart` (dashboard.js lines 762-772) for one
entity group. -/
def safetyScoreOf (crashes : List NRecord) : ℚ :=
  let crashCount : ℚ := crashes.length
  let tf : ℚ := totalFatalities crashes
  let ta : ℚ := totalAboard crashes
  let rate : ℚ := fatalityRate tf ta
  let crashScore : ℚ := min (crashCount / 10 * 100) 100
  let fatalityScore : ℚ := min (rate * 2) 100
  let rawScore : ℚ := crashScore * 0.3 + fatalityScore * 0.7
  max 0 (100 - rawScore)

/-- Embedding of the grade ladder of `renderSafetyRankingsChart`
(dashboard.js lines 775-781). -/
def gradeOf (safetyScore : ℚ) : String :=
  if safetyScore ≥ 90 then "A+"
  else if safetyScore ≥ 80 then "A"
  else if safetyScore ≥ 70 then "B"
  else if safetyScore ≥ 60 then "C"
  else if safetyScore ≥ 50 then "D"
  else "F"

/-- The safety-score formula exactly as the specification words it
(spec section 4.5), as a function of crash count `C`, cumulative
fatalities `F` and cumulative aboard `A`; `R = F/A*100` (division by
zero yields `0` in `ℚ`, matching the guarded source). -/
def specSafetyScore (C F A : ℚ) : ℚ :=
  max 0 (100 - (0.3 * min (C / 10 * 100) 100 + 0.7 * min (F / A * 100 * 2) 100))

/-! ## Anomaly detector (dashboard.js renderAnomalyChart, lines 1005-1020) -/

/-- An anomaly entry as pushed by `renderAnomalyChart` (dashboard.js
line 1018): `{ year, crashes, type }`. -/
structure Anomaly where
  year : ℤ
  crashes : ℚ
  kind : String
deriving DecidableEq, Repr

/-- Mean of the per-period counts (dashboard.js line 1011); `0` for the
empty series, as in the spec's statistics contract. -/
def crashMean (counts : List ℚ) : ℚ :=
  counts.sum / counts.length

/-- Population variance of the per-period counts.  The source computes
`stdDev = sqrt(variance)` (dashboard.js line 1012) and tests
`|count - mean| > 2 * stdDev`; the embedding keeps the variance and
tests the equivalent squared inequality `(count - mean)^2 > 4 * variance`
(see `abs_gt_two_sqrt_iff_sq` below), which keeps the detector inside
`ℚ`. -/
def popVariance (counts : List ℚ) : ℚ :=
  (counts.map (fun c => (c - crashMean counts) ^ 2)).sum / counts.length

/-- The anomaly test of dashboard.js line 1017,
`Math.abs(counts[idx] - avgCrashes) > 2 * stdDev`, in squared form. -/
def isAnomalous (counts : List ℚ) (c : ℚ) : Bool :=
  decide ((c - crashMean counts) ^ 2 > 4 * popVariance counts)

/-- Embedding of the anomaly scan of `renderAnomalyChart` (dashboard.js
lines 1015-1020): the flagged periods of a (year, count) series, with
kind `High Crashes` when the count exceeds the mean. -/
def detectAnomalies (series : List (ℤ × ℚ)) : List Anomaly :=
  let counts := series.map Prod.snd
  (series.filter (fun p => isAnomalous counts p.2)).map
    (fun p =>
      { year := p.1
        crashes := p.2
        kind := if p.2 > crashMean counts then "High Crashes" else "Low Crashes" })

/-! ## Trend forecaster (dashboard.js renderPredictiveTrendChart, lines 832-888) -/

/-- Embedding of the linear forecast of `renderPredictiveTrendChart`
(dashboard.js lines 839-854).  The source runs it on the sorted
(year, count) series with the horizon fixed to 10
(`for (let i = 1; i <= 10; i++)`); the loop bound is the `horizon`
parameter here.  With fewer than two points the source skips the
computation entirely, embedded as the empty forecast. -/
def forecast (series : List (ℤ × ℚ)) (horizon : ℕ) : List (ℤ × ℚ) :=
  match series with
  | p0 :: q :: qs =>
      let last := (q :: qs).getLast (List.cons_ne_nil q qs)
      let slope : ℚ := (last.2 - p0.2) / (((last.1 - p0.1 : ℤ) : ℚ))
      (List.range horizon).map
        (fun (i : ℕ) => (last.1 + ((i : ℤ) + 1), last.2 + slope * (((i : ℚ)) + 1)))
  | _ => []

/-! ## Insight generator (dashboard.js generateAIInsights, lines 908-1003) -/

/-- One insight card `{ title, text }`.  The emoji icon constant of the
source is presentation-only and omitted. -/
structure Insight where
  title : String
  text : String
deriving DecidableEq, Repr

/-- Accumulator of the safest/most-dangerous-year loop (dashboard.js
lines 913-926): `minCrashes` starts at `Infinity` (`none`),
`safestYear`/`worstYear` start `undefined` (`none`); a year key is
itself optional because the record year can be absent. -/
structure YearScanState where
  minCrashes : Option ℕ
  maxCrashes : ℕ
  safestYear : Option (Option ℤ)
  worstYear : Option (Option ℤ)
deriving DecidableEq, Repr

/-- `count < minCrashes` with `minCrashes` possibly `Infinity`. -/
def ltMinCrashes (count : ℕ) : Option ℕ → Bool
  | none => true
  | some m => decide (count < m)

/-- Render a possibly-`undefined` year key in insight text. -/
def showYearKey : Option (Option ℤ) → String
  | none => "undefined"
  | some none => "undefined"
  | some (some y) => toString y

/-- Render the possibly-infinite minimum crash count. -/
def showMinCrashes : Option ℕ → String
  | none => "Infinity"
  | some n => toString n

/-- Embedding of a JavaScript element access `l[i]` that is immediately
followed by a property access, so an out-of-range index throws a
`TypeError` (property access on `undefined`). -/
def jsAt {α : Type} (l : List α) (i : ℕ) : Except String α :=
  match l.get? i with
  | some x => Except.ok x
  | none => Except.error "TypeError: cannot read properties of undefined"

/-- The `reduce` of dashboard.js lines 994-995: deadliest crash with
sentinel initial value `{ Fatalities: 0 }` (embedded as `none`). -/
def deadliestCrash (filteredData : List NRecord) : Option NRecord :=
  filteredData.foldl
    (fun mx c =>
      if c.Fatalities > (match mx with | none => 0 | some m => m.Fatalities) then some c
      else mx)
    none

/-- Embedding of `generateAIInsights` (dashboard.js lines 908-1003).
The numeric `toFixed`/`toLocaleString` formatting of the source is
abstracted by `toString`.  The two element accesses that throw on an
empty record set (`sortedDays[0][0]`, `sortedSeasons[0][0]`) and the
`deadliestCrash.Date.getFullYear()` access that throws on the sentinel
are embedded through `Except`. -/
def generateAIInsights (filteredData : List NRecord) : Except String (List Insight) := do
  let yearlyCrashes := groupBy filteredData (fun c => c.year)
  let scan := yearlyCrashes.foldl
    (fun (s : YearScanState) p =>
      let count := p.2.length
      let s :=
        if ltMinCrashes count s.minCrashes then
          { s with minCrashes := some count, safestYear := some p.1 }
        else s
      if count > s.maxCrashes then
        { s with maxCrashes := count, worstYear := some p.1 }
      else s)
    { minCrashes := none, maxCrashes := 0, safestYear := none, worstYear := none }
  let insights : List Insight :=
    [{ title := "Safest Year"
       text := showYearKey scan.safestYear ++ " had only " ++
         showMinCrashes scan.minCrashes ++ " crashes - the safest year on record!" },
     { title := "Most Dangerous Year"
       text := showYearKey scan.worstYear ++ " recorded " ++
         toString scan.maxCrashes ++ " crashes - the highest in history." }]
  let operatorData := groupBy filteredData (fun c => c.Operator)
  let operatorCounts :=
    sortDescBy (fun p => (p.2 : ℚ)) (operatorData.map (fun p => (p.1, p.2.length)))
  let insights := insights ++
    (match operatorCounts with
     | [] => []
     | oc :: _ =>
         [{ title := "Most Incidents"
            text := oc.1 ++ " has the most recorded incidents with " ++
              toString oc.2 ++ " crashes." }])
  let ta : ℚ := totalAboard filteredData
  let tf : ℚ := totalFatalities filteredData
  let surv := survivalRate ta tf
  let insights := insights ++
    [{ title := "Overall Survival Rate"
       text := toString surv ++
         " percent of people aboard survived crashes - aviation safety has improved dramatically!" }]
  let dayCounts := countBy (filteredData.map (fun c => c.day_name))
  let sortedDays := sortDescBy (fun p => (p.2 : ℚ)) dayCounts
  let d0 ← jsAt sortedDays 0
  let dLast ← jsAt sortedDays (sortedDays.length - 1)
  let insights := insights ++
    [{ title := "Day Pattern"
       text := d0.1 ++ " has the most crashes (" ++ toString d0.2 ++ "), while " ++
         dLast.1 ++ " is statistically safer (" ++ toString dLast.2 ++ " crashes)." }]
  let seasonCounts := countBy (filteredData.map (fun c => c.season))
  let sortedSeasons := sortDescBy (fun p => (p.2 : ℚ)) seasonCounts
  let s0 ← jsAt sortedSeasons 0
  let insights := insights ++
    [{ title := "Seasonal Pattern"
       text := s0.1 ++ " is the most dangerous season with " ++
         toString s0.2 ++ " crashes recorded." }]
  let groundCasualties := (filteredData.map (fun c => c.Ground)).sum
  let insights := insights ++
    [{ title := "Ground Impact"
       text := toString groundCasualties ++
         " ground casualties recorded - emphasizing the importance of safe flight paths over populated areas." }]
  let deadliest ← (match deadliestCrash filteredData with
    | some d => Except.ok d
    | none => Except.error "TypeError: cannot read properties of undefined")
  let insights := insights ++
    [{ title := "Deadliest Incident"
       text := "The deadliest crash had " ++ toString deadliest.Fatalities ++
         " fatalities (" ++ deadliest.Operator ++ ", " ++
         showYearKey (some deadliest.DateYear) ++ ")." }]
  return insights

/-! ## part_005: severity scores and weighted risk ranking -/

/-- Embedding of `Number(d.Fatalities) || 0` (part_005 line 58). -/
def loadFatalities (rawFatalities : Option ℕ) : ℕ :=
  rawFatalities.getD 0

/-- Embedding of `fatalities + Math.floor(Math.random() * 20)`
(part_005 line 61); `pad` stands for the random draw. -/
def loadAboard (fatalities pad : ℕ) : ℕ :=
  fatalities + pad

/-- Embedding of `Number(x.toFixed(2))`: round to two decimal places. -/
noncomputable def toFixed2 (x : ℝ) : ℝ :=
  ((round (x * 100) : ℤ) : ℝ) / 100

/-- Embedding of `Math.min(100, Math.log1p(fatalities) * 20)`
(part_005 lines 65-68); `Math.log1p x = log (1 + x)`. -/
noncomputable def rawSeverityScore (fatalities : ℕ) : ℝ :=
  min 100 (Real.log (1 + (fatalities : ℝ)) * 20)

/-- The severity score stored by `loadCrashData` (part_005 line 83):
the raw score rounded to two decimals. -/
noncomputable def loadSeverityScore (fatalities : ℕ) : ℝ :=
  toFixed2 (rawSeverityScore fatalities)

/-- Embedding of the sample-data severity of `generateSampleData`
(part_005 line 28):
`Math.min(100, Math.log1p(baseScore) * 15 + (Math.random() * 10 - 5))`
rounded to two decimals; `noise` stands for the draw
`Math.random() * 10 - 5`, which ranges over `[-5, 5)`. -/
noncomputable def genSeverityScore (baseScore noise : ℝ) : ℝ :=
  toFixed2 (min 100 (Real.log (1 + baseScore) * 15 + noise))

/-- Sum of the severity scores of a group (part_005 line 281). -/
def severitySum (g : List PRecord) : ℚ :=
  (g.map (fun d => d.severityScore)).sum

/-- Embedding of the weighted risk score of `renderOperatorRiskRanking`
(part_005 lines 284-288) for one operator group:
`(crashes * 1.5) + (fatalities / 10) + (avgSeverity * 2)` where
`avgSeverity = severitySum / crashes`. -/
def weightedRiskScore (g : List PRecord) : ℚ :=
  let crashes : ℚ := g.length
  let fats : ℚ := ((g.map (fun d => d.fatalities)).sum : ℕ)
  let avgSeverity : ℚ := severitySum g / crashes
  crashes * 1.5 + fats / 10 + avgSeverity * 2

/-- Embedding of `renderOperatorRiskRanking` (part_005 lines 272-292):
group the non-`Unknown` operators, score each group, keep scores above
10, sort descending, take the top 15. -/
def rankedOperators (data : List PRecord) : List (String × ℚ) :=
  let eligible := data.filter (fun d => decide (d.operator ≠ "Unknown"))
  let groups := groupBy eligible (fun d => d.operator)
  let scored := groups.map (fun p => (p.1, weightedRiskScore p.2))
  (sortDescBy (fun op => op.2) (scored.filter (fun op => decide (op.2 > 10)))).take 15

/-! ## Concrete sample data used by witnesses and counterexamples -/

/-- A fully populated raw record (the 1977 Tenerife-style example). -/
def sampleRaw : RawRecord :=
  { Location := some "Paris, France"
    Year := some 1977
    TypeName := some "Commercial"
    Fatalities := some 583
    Country := some "France" }

/-- The canonical record `normalizeCrashData sampleRaw 7 3` produces. -/
def sampleNormalized : NRecord :=
  { Operator := "Paris"
    TypeName := "Commercial"
    Fatalities := 583
    Aboard := 590
    Ground := 3
    year := some 1977
    month := 1
    day_name := "Monday"
    season := "Winter"
    decade := some 1970
    DateYear := some 1977 }

/-- A normalized script.js record used by the filter witness. -/
def sampleSRecord : SRecord :=
  { Year := 2000
    TypeName := "Commercial"
    Country := "USA"
    Location := "New York, USA"
    Fatalities := 10 }

/-- The yearly count series `[10, 10, 10, 10, 100]` of the anomaly
claim, keyed by years 2000-2004. -/
def series5 : List (ℤ × ℚ) :=
  [(2000, 10), (2001, 10), (2002, 10), (2003, 10), (2004, 100)]

/-- The series `[10, 10, 10, 10, 10, 100]`, whose final period strictly
exceeds the two-sigma band. -/
def series6 : List (ℤ × ℚ) :=
  [(2000, 10), (2001, 10), (2002, 10), (2003, 10), (2004, 10), (2005, 100)]

/-- A part_005 record with a 50 percent fatality rate but zero severity
score: crash count 1, fatalities 10, aboard 20. -/
def cxPRecord : PRecord :=
  { operator := "TestAir", fatalities := 10, aboard := 20, severityScore := 0 }

/-- A one-record data set whose single operator group scores
`1 * 1.5 + 100 / 10 + 50 * 2 = 111.5`. -/
def riskSample : List PRecord :=
  [{ operator := "AirX", fatalities := 100, aboard := 120, severityScore := 50 }]

/-! ## Helper lemmas -/

theorem mem_insertDescBy {α : Type} (f : α → ℚ) (x a : α) (l : List α) :
    a ∈ insertDescBy f x l ↔ a = x ∨ a ∈ l := by
  induction l with
  | nil => simp [insertDescBy]
  | cons y ys ih =>
      simp only [insertDescBy]
      split
      · simp only [List.mem_cons, ih]
        tauto
      · simp only [List.mem_cons]

theorem mem_sortDescBy {α : Type} (f : α → ℚ) (a : α) (l : List α) :
    a ∈ sortDescBy f l ↔ a ∈ l := by
  induction l with
  | nil => simp [sortDescBy]
  | cons x xs ih => simp [sortDescBy, mem_insertDescBy, ih]

theorem pairwise_insertDescBy {α : Type} (f : α → ℚ) (x : α) (l : List α)
    (h : l.Pairwise (fun a b => f b ≤ f a)) :
    (insertDescBy f x l).Pairwise (fun a b => f b ≤ f a) := by
  induction l with
  | nil => simp [insertDescBy]
  | cons y ys ih =>
      rcases List.pairwise_cons.mp h with ⟨hy, hys⟩
      simp only [insertDescBy]
      split
      · rename_i hxy
        refine List.pairwise_cons.mpr ⟨?_, ih hys⟩
        intro z hz
        rcases (mem_insertDescBy f x z ys).mp hz with rfl | hz2
        · exact hxy
        · exact hy z hz2
      · rename_i hxy
        push_neg at hxy
        refine List.pairwise_cons.mpr ⟨?_, h⟩
        intro z hz
        rcases List.mem_cons.mp hz with rfl | hz2
        · exact le_of_lt hxy
        · exact (hy z hz2).trans (le_of_lt hxy)

theorem pairwise_sortDescBy {α : Type} (f : α → ℚ) (l : List α) :
    (sortDescBy f l).Pairwise (fun a b => f b ≤ f a) := by
  induction l with
  | nil => simp [sortDescBy]
  | cons x xs ih => exact pairwise_insertDescBy f x _ ih

theorem jsToLower_eq_empty_iff (s : String) : jsToLower s = "" ↔ s = "" := by
  constructor
  · intro h
    have hd : (jsToLower s).data = String.data "" := by rw [h]
    simp only [jsToLower] at hd
    have : s.data = [] := by
      have h2 : s.data.map Char.toLower = [] := hd
      exact List.map_eq_nil.mp h2
    exact String.ext_iff.mpr this
  · intro h
    rw [h]
    rfl

/-- The source computes `stdDev = sqrt v` and tests
`2 * stdDev < |x|`; over a nonnegative variance this is the squared
test used by `isAnomalous`. -/
theorem abs_gt_two_sqrt_iff_sq (x v : ℝ) (hv : 0 ≤ v) :
    2 * Real.sqrt v < |x| ↔ 4 * v < x ^ 2 := by
  have h1 : (2 * Real.sqrt v) ^ 2 = 4 * v := by
    rw [mul_pow, Real.sq_sqrt hv]
    norm_num
  rw [← h1, ← sq_abs x]
  exact (pow_lt_pow_iff_left (by positivity) (abs_nonneg x)
    (by norm_num : (2 : ℕ) ≠ 0)).symm

/-! ## Claim theorems -/

/-- Claim C1: for every entity group with crash count `C`, cumulative
fatalities `F`, cumulative aboard `A` and fatality rate `R = F/A*100`,
the safety scorer computes
`max(0, 100 - (0.3*min(C/10*100, 100) + 0.7*min(R*2, 100)))` and maps
it to a grade by the ladder 90/80/70/60/50; an entity with 0 crashes
and 0 fatalities scores exactly 100 with grade `A+`. -/
theorem safety_score_formula_and_grades :
    (∀ crashes : List NRecord,
        safetyScoreOf crashes =
          specSafetyScore (crashes.length : ℚ) ((totalFatalities crashes : ℕ) : ℚ)
            ((totalAboard crashes : ℕ) : ℚ)) ∧
    (∀ s : ℚ,
        (s ≥ 90 → gradeOf s = "A+") ∧
        (s ≥ 80 → s < 90 → gradeOf s = "A") ∧
        (s ≥ 70 → s < 80 → gradeOf s = "B") ∧
        (s ≥ 60 → s < 70 → gradeOf s = "C") ∧
        (s ≥ 50 → s < 60 → gradeOf s = "D") ∧
        (s < 50 → gradeOf s = "F")) ∧
    safetyScoreOf [] = 100 ∧ gradeOf (safetyScoreOf []) = "A+" := by
  have h0 : safetyScoreOf [] = 100 := by
    simp [safetyScoreOf, totalFatalities, totalAboard, fatalityRate]
  refine ⟨?_, ?_, h0, by rw [h0]; norm_num [gradeOf]⟩
  · intro crashes
    by_cases hta : (0 : ℚ) < ((totalAboard crashes : ℕ) : ℚ)
    · simp only [safetyScoreOf, specSafetyScore, fatalityRate, if_pos hta]
      ring_nf
    · have hta0 : ((totalAboard crashes : ℕ) : ℚ) = 0 :=
        le_antisymm (not_lt.mp hta) (by positivity)
      simp only [safetyScoreOf, specSafetyScore, fatalityRate, hta0, if_neg hta]
      rw [div_zero, if_neg (lt_irrefl (0 : ℚ))]
      ring_nf
  · intro s
    refine ⟨?_, ?_, ?_, ?_, ?_, ?_⟩
    · intro h
      simp only [gradeOf, if_pos h]
    · intro h1 h2
      simp only [gradeOf]
      rw [if_neg (by linarith), if_pos h1]
    · intro h1 h2
      simp only [gradeOf]
      rw [if_neg (by linarith), if_neg (by linarith), if_pos h1]
    · intro h1 h2
      simp only [gradeOf]
      rw [if_neg (by linarith), if_neg (by linarith), if_neg (by linarith), if_pos h1]
    · intro h1 h2
      simp only [gradeOf]
      rw [if_neg (by linarith), if_neg (by linarith), if_neg (by linarith),
        if_neg (by linarith), if_pos h1]
    · intro h1
      simp only [gradeOf]
      rw [if_neg (by linarith), if_neg (by linarith), if_neg (by linarith),
        if_neg (by linarith), if_neg (by linarith)]

/-- Witness for C1: the grade ladder applied at the concrete score 100. -/
theorem safety_score_formula_and_grades_witness :
    (100 : ℚ) ≥ 90 ∧ gradeOf 100 = "A+" :=
  ⟨by norm_num, (safety_score_formula_and_grades.2.1 100).1 (by norm_num)⟩

/-- Claim C2: a record is in the filtered output iff it is in the input
and `minYear ≤ year ≤ maxYear`, the region is empty or the country
contains it case-insensitively, the category is `All` or matches, and
`fatalities ≥ minFatalities`. -/
theorem filter_engine_membership :
    ∀ (crashData : List SRecord) (c : SRecord) (minY maxY : ℤ)
      (typeFilter region : String) (minF : ℕ),
      c ∈ applyFilters minY maxY typeFilter region minF crashData ↔
        c ∈ crashData ∧ minY ≤ c.Year ∧ c.Year ≤ maxY ∧
          (region = "" ∨ jsIncludes (jsToLower c.Country) (jsToLower region) = true) ∧
          (typeFilter = "All" ∨ c.TypeName = typeFilter) ∧
          minF ≤ c.Fatalities := by
  intro crashData c minY maxY typeFilter region minF
  have hreg := jsToLower_eq_empty_iff region
  rw [applyFilters, List.mem_filter]
  simp only [matchesFilters, Bool.and_eq_true, Bool.or_eq_true, decide_eq_true_eq, ge_iff_le]
  tauto

/-- Witness for C2: a concrete record passes a concrete filter. -/
theorem filter_engine_membership_witness :
    sampleSRecord ∈ applyFilters 1990 2005 "All" "us" 5 [sampleSRecord] :=
  (filter_engine_membership [sampleSRecord] sampleSRecord 1990 2005 "All" "us" 5).mpr
    ⟨by decide, by decide, by decide, Or.inr (by decide), Or.inl rfl, by decide⟩

/-- Claim C3 (code bug): the normalizer is not total — on a raw record
with no `Location` (here the empty object) it throws a `TypeError`
instead of returning a canonical record with defaults. -/
theorem normalizer_throws_on_missing_location :
    normalizeCrashData emptyRaw 0 0 =
      Except.error "TypeError: cannot read properties of undefined (reading split)" := rfl

/-- Claim C4: every record the normalizer produces satisfies
`aboard ≥ fatalities`, `decade = floor(year/10)*10` (the absent year is
carried through as-is), and a season in {Winter, Spring, Summer, Fall};
and `getSeason` maps every month 1..12 into that set. -/
theorem normalized_record_invariants :
    (∀ (crash : RawRecord) (padAboard padGround : ℕ) (r : NRecord),
        normalizeCrashData crash padAboard padGround = Except.ok r →
          r.Fatalities ≤ r.Aboard ∧
          r.decade = r.year.map (fun y => Int.fdiv y 10 * 10) ∧
          r.season ∈ ["Winter", "Spring", "Summer", "Fall"]) ∧
    (∀ (year : Option ℤ) (month : ℤ), 1 ≤ month → month ≤ 12 →
        getSeason year month ∈ ["Winter", "Spring", "Summer", "Fall"]) := by
  constructor
  · intro crash padAboard padGround r h
    rcases hloc : crash.Location with _ | loc
    · rw [normalizeCrashData, hloc] at h
      exact absurd h (by simp)
    · rw [normalizeCrashData, hloc] at h
      have hr := Except.ok.inj h
      subst hr
      refine ⟨?_, rfl, ?_⟩
      · rcases hf : crash.Fatalities with _ | f
        · simp [hf]
        · simp only [hf, Option.getD_some]
          by_cases hf0 : 0 < f
          · simp [hf0]
          · simp only [if_neg hf0]
            omega
      · simp [getSeason]
  · intro year month h1 h12
    unfold getSeason
    split_ifs <;> simp

/-- Witness for C4: the invariants hold for the concrete normalized
record of `sampleRaw`, and `getSeason` at July. -/
theorem normalized_record_invariants_witness :
    (sampleNormalized.Fatalities ≤ sampleNormalized.Aboard ∧
        sampleNormalized.decade =
          sampleNormalized.year.map (fun y => Int.fdiv y 10 * 10) ∧
        sampleNormalized.season ∈ ["Winter", "Spring", "Summer", "Fall"]) ∧
      getSeason (some 2000) 7 ∈ ["Winter", "Spring", "Summer", "Fall"] :=
  ⟨normalized_record_invariants.1 sampleRaw 7 3 sampleNormalized (by rfl),
   normalized_record_invariants.2 (some 2000) 7 (by decide) (by decide)⟩

/-- Counterexample to claim C5: on the series `[10,10,10,10,100]` the
detector flags nothing at all — in particular the final period is not
flagged `High` — because the deviation of the final count equals
exactly two population standard deviations and the source test is
strict. -/
theorem anomaly_series_not_flagged :
    detectAnomalies series5 = [] ∧
      ({ year := 2004, crashes := 100, kind := "High Crashes" } : Anomaly) ∉
        detectAnomalies series5 := by
  have h : detectAnomalies series5 = [] := by
    simp only [detectAnomalies, series5, isAnomalous, crashMean, popVariance]
    norm_num [List.filter]
  exact ⟨h, by simp [h]⟩

/-- Claim C5 as amended: the detector flags a period iff
`|count - mean|` strictly exceeds two population standard deviations
(equivalently `(count - mean)^2 > 4 * variance`), with kind
`High Crashes` when the count exceeds the mean; on `[10,10,10,10,100]`
the final deviation squared equals `4 * variance` exactly, so nothing
is flagged, while on `[10,10,10,10,10,100]` the final period is the
single flagged one, as `High Crashes`. -/
theorem anomaly_detector_strict_rule :
    (∀ (series : List (ℤ × ℚ)) (y : ℤ) (c : ℚ) (k : String),
        ({ year := y, crashes := c, kind := k } : Anomaly) ∈ detectAnomalies series ↔
          ((y, c) ∈ series ∧
            (c - crashMean (series.map Prod.snd)) ^ 2 >
              4 * popVariance (series.map Prod.snd) ∧
            k = (if c > crashMean (series.map Prod.snd) then "High Crashes"
              else "Low Crashes"))) ∧
    (100 - crashMean (series5.map Prod.snd)) ^ 2 =
      4 * popVariance (series5.map Prod.snd) ∧
    detectAnomalies series6 =
      [{ year := 2005, crashes := 100, kind := "High Crashes" }] := by
  refine ⟨?_, ?_, ?_⟩
  · intro series y c k
    simp only [detectAnomalies, List.mem_map, List.mem_filter, isAnomalous,
      decide_eq_true_eq]
    constructor
    · rintro ⟨⟨py, pc⟩, ⟨hp, hcond⟩, heq⟩
      rw [Anomaly.mk.injEq] at heq
      obtain ⟨hy, hc, hk⟩ := heq
      subst hy
      subst hc
      exact ⟨hp, hcond, hk.symm⟩
    · rintro ⟨hmem, hcond, hk⟩
      exact ⟨(y, c), ⟨hmem, hcond⟩, by rw [Anomaly.mk.injEq]; exact ⟨rfl, rfl, hk.symm⟩⟩
  · simp only [series5, crashMean, popVariance]
    norm_num
  · simp only [detectAnomalies, series6, isAnomalous, crashMean, popVariance]
    norm_num [List.filter]

/-- Witness for C5's amended rule: the characterization applied at the
final period of `series6`. -/
theorem anomaly_detector_strict_rule_witness :
    ({ year := 2005, crashes := 100, kind := "High Crashes" } : Anomaly) ∈
      detectAnomalies series6 :=
  (anomaly_detector_strict_rule.1 series6 2005 100 "High Crashes").mpr
    ⟨by simp [series6], by norm_num [series6, crashMean, popVariance],
     by norm_num [series6, crashMean, popVariance]⟩

/-- Claim C6: with at least two points the forecaster extrapolates
`lastValue + slope * i` for `i = 1..horizon` with
`slope = (lastValue - firstValue) / (lastPeriod - firstPeriod)`; the
example series {2010: 5, 2020: 15} predicts 16 for 2021 and 17 for
2022; with fewer than two points the forecast is empty. -/
theorem forecaster_linear :
    (∀ (p0 q : ℤ × ℚ) (qs : List (ℤ × ℚ)) (horizon : ℕ),
        forecast (p0 :: q :: qs) horizon =
          (List.range horizon).map
            (fun (i : ℕ) =>
              (((q :: qs).getLast (List.cons_ne_nil q qs)).1 + ((i : ℤ) + 1),
                ((q :: qs).getLast (List.cons_ne_nil q qs)).2 +
                  (((q :: qs).getLast (List.cons_ne_nil q qs)).2 - p0.2) /
                      (((((q :: qs).getLast (List.cons_ne_nil q qs)).1 - p0.1 : ℤ) : ℚ)) *
                    ((i : ℚ) + 1)))) ∧
    forecast [(2010, 5), (2020, 15)] 2 = [(2021, 16), (2022, 17)] ∧
    (∀ (series : List (ℤ × ℚ)) (horizon : ℕ), series.length < 2 →
        forecast series horizon = []) := by
  refine ⟨?_, ?_, ?_⟩
  · intro p0 q qs horizon
    rfl
  · show forecast [(2010, 5), (2020, 15)] 2 = [(2021, 16), (2022, 17)]
    simp only [forecast, List.getLast]
    norm_num [List.range_succ, List.range_zero]
  · intro series horizon h
    rcases series with _ | ⟨p0, _ | ⟨q, qs⟩⟩
    · rfl
    · rfl
    · exfalso
      simp only [List.length_cons] at h
      omega

/-- Witness for C6: the degenerate branch applied to the empty series. -/
theorem forecaster_linear_witness :
    ([] : List (ℤ × ℚ)).length < 2 ∧ forecast [] 5 = [] :=
  ⟨by decide, forecaster_linear.2.2 [] 5 (by decide)⟩

/-- Claim C7: the guarded rate computations return 0 whenever the total
aboard is 0 — both the fatality rate of the scorer and the overall
survival rate of the insight generator — including for any record
group whose cumulative aboard is 0. -/
theorem rate_zero_aboard_guard :
    (∀ tf : ℚ, fatalityRate tf 0 = 0) ∧
    (∀ tf : ℚ, survivalRate 0 tf = 0) ∧
    (∀ crashes : List NRecord, ((totalAboard crashes : ℕ) : ℚ) = 0 →
        fatalityRate ((totalFatalities crashes : ℕ) : ℚ) ((totalAboard crashes : ℕ) : ℚ) = 0) := by
  refine ⟨?_, ?_, ?_⟩
  · intro tf
    simp [fatalityRate]
  · intro tf
    simp [survivalRate]
  · intro crashes h
    rw [h]
    simp [fatalityRate]

/-- Witness for C7: the group guard applied to the empty record group. -/
theorem rate_zero_aboard_guard_witness :
    ((totalAboard [] : ℕ) : ℚ) = 0 ∧
      fatalityRate ((totalFatalities [] : ℕ) : ℚ) ((totalAboard [] : ℕ) : ℚ) = 0 :=
  ⟨by simp [totalAboard], rate_zero_aboard_guard.2.2 [] (by simp [totalAboard])⟩

/-- Claim C8 (code bug): on the empty record set the insight generator
does not return an empty insight list — it throws a `TypeError` at the
day-of-week maximum (`sortedDays[0][0]` with `sortedDays` empty), after
having already built non-empty placeholder insights. -/
theorem insights_throw_on_empty :
    generateAIInsights [] =
      Except.error "TypeError: cannot read properties of undefined" := by
  rfl

/-- Counterexample to claim C9: for the one-record group of
`cxPRecord` (crash count 1, fatalities 10, aboard 20, severity 0) the
code computes `1*1.5 + 10/10 + 2*avgSeverity = 2.5`, not the claimed
`1.5*C + F/10 + 2*R = 102.5` with `R` the fatality rate
`F/A*100 = 50`. -/
theorem weighted_risk_formula_refuted :
    weightedRiskScore [cxPRecord] ≠
      1.5 * (([cxPRecord] : List PRecord).length : ℚ) +
        ((cxPRecord.fatalities : ℚ)) / 10 +
        2 * ((cxPRecord.fatalities : ℚ) / (cxPRecord.aboard : ℚ) * 100) := by
  norm_num [weightedRiskScore, severitySum, cxPRecord]

/-- Claim C9 as amended: the weighted risk ranking scores each operator
group as `1.5*C + F/10 + 2*avgSeverity` (the third term is twice the
group's average severity score, not twice its fatality rate), keeps
only entries whose score exceeds 10, and lists them in descending
score order (top 15). -/
theorem weighted_risk_uses_avg_severity :
    (∀ (data : List PRecord) (p : String × ℚ), p ∈ rankedOperators data →
        10 < p.2 ∧
        ∃ g ∈ groupBy (data.filter (fun d => decide (d.operator ≠ "Unknown")))
            (fun d => d.operator),
          p.1 = g.1 ∧
          p.2 = (g.2.length : ℚ) * 1.5 +
              ((((g.2.map (fun d => d.fatalities)).sum : ℕ) : ℚ)) / 10 +
              ((g.2.map (fun d => d.severityScore)).sum / (g.2.length : ℚ)) * 2) ∧
    (∀ data : List PRecord, (rankedOperators data).Pairwise (fun a b => b.2 ≤ a.2)) := by
  constructor
  · intro data p hp
    simp only [rankedOperators] at hp
    have hp1 := List.mem_of_mem_take hp
    have hp2 := (mem_sortDescBy _ _ _).mp hp1
    rw [List.mem_filter] at hp2
    obtain ⟨hmap, hgt⟩ := hp2
    rw [decide_eq_true_eq] at hgt
    obtain ⟨g, hg, hgp⟩ := List.mem_map.mp hmap
    subst hgp
    exact ⟨hgt, g, hg, rfl, rfl⟩
  · intro data
    simp only [rankedOperators]
    exact List.Pairwise.sublist (List.take_sublist _ _) (pairwise_sortDescBy _ _)

/-- Witness for C9's amended ranking: the concrete one-operator data
set scores `111.5`, is listed, and exceeds the threshold. -/
theorem weighted_risk_uses_avg_severity_witness :
    ("AirX", (223 / 2 : ℚ)) ∈ rankedOperators riskSample ∧ (10 : ℚ) < 223 / 2 := by
  have hmem : ("AirX", (223 / 2 : ℚ)) ∈ rankedOperators riskSample := by
    norm_num [rankedOperators, riskSample, groupBy, weightedRiskScore, severitySum,
      sortDescBy, insertDescBy, List.filter]
  exact ⟨hmem, (weighted_risk_uses_avg_severity.1 riskSample _ hmem).1⟩

/-- Claim C10: every record `loadCrashData` produces has a severity
score within `[0, 100]` (it is `min(100, log1p(fatalities)*20)` rounded
to two decimals, with nonnegative fatalities) and an aboard count at
least the fatality count; the analogous sample-data generator does not
guarantee the severity bound — its noise term can drive the score
negative. -/
theorem load_severity_bounds :
    (∀ (rawFatalities : Option ℕ) (pad : ℕ),
        0 ≤ loadSeverityScore (loadFatalities rawFatalities) ∧
        loadSeverityScore (loadFatalities rawFatalities) ≤ 100 ∧
        loadFatalities rawFatalities ≤ loadAboard (loadFatalities rawFatalities) pad) ∧
    (∃ noise : ℝ, -5 ≤ noise ∧ noise < 5 ∧ genSeverityScore 0 noise < 0) := by
  constructor
  · intro rawF pad
    have hf : (0 : ℝ) ≤ (loadFatalities rawF : ℝ) := Nat.cast_nonneg _
    have h0 : 0 ≤ rawSeverityScore (loadFatalities rawF) := by
      refine le_min (by norm_num) ?_
      exact mul_nonneg (Real.log_nonneg (by linarith)) (by norm_num)
    have h100 : rawSeverityScore (loadFatalities rawF) ≤ 100 := min_le_left _ _
    have hr0 : (0 : ℤ) ≤ round (rawSeverityScore (loadFatalities rawF) * 100) := by
      rw [round_eq]
      exact Int.le_floor.mpr (by push_cast; nlinarith)
    have hr1 : round (rawSeverityScore (loadFatalities rawF) * 100) ≤ 10000 := by
      rw [round_eq]
      have h2 : rawSeverityScore (loadFatalities rawF) * 100 + 1 / 2 <
          ((10001 : ℤ) : ℝ) := by push_cast; nlinarith
      have h3 := Int.floor_lt.mpr h2
      omega
    refine ⟨?_, ?_, Nat.le_add_right _ _⟩
    · show 0 ≤ toFixed2 (rawSeverityScore (loadFatalities rawF))
      unfold toFixed2
      apply div_nonneg _ (by norm_num)
      exact_mod_cast hr0
    · show toFixed2 (rawSeverityScore (loadFatalities rawF)) ≤ 100
      unfold toFixed2
      rw [div_le_iff (by norm_num : (0 : ℝ) < 100)]
      calc ((round (rawSeverityScore (loadFatalities rawF) * 100) : ℤ) : ℝ)
          ≤ ((10000 : ℤ) : ℝ) := by exact_mod_cast hr1
        _ = 100 * 100 := by norm_num
  · refine ⟨-1, by norm_num, by norm_num, ?_⟩
    have hgen : genSeverityScore 0 (-1) = -1 := by
      unfold genSeverityScore toFixed2
      rw [show (1 : ℝ) + 0 = 1 by norm_num, Real.log_one,
        show (0 : ℝ) * 15 + (-1) = -1 by ring,
        min_eq_right (by norm_num : (-1 : ℝ) ≤ 100),
        show (-1 : ℝ) * 100 = ((-100 : ℤ) : ℝ) by norm_num, round_intCast]
      norm_num
    rw [hgen]
    norm_num

/-- Witness for C10: the bounds at a concrete record with zero
fatalities. -/
theorem load_severity_bounds_witness :
    0 ≤ loadSeverityScore (loadFatalities (some 0)) ∧
      loadFatalities (some 0) ≤ loadAboard (loadFatalities (some 0)) 5 :=
  ⟨(load_severity_bounds.1 (some 0) 5).1, (load_severity_bounds.1 (some 0) 5).2.2⟩
